import Mathlib

/-!
Verification of the ContextViewerMCP state-synchronization layer.

The repository is a Python MCP server (src/mcp_server.py) plus a browser-facing
HTTP server (src/server.py) that exchange selection and navigation events
through a single persisted JSON state document.  This file gives a shallow
embedding of the state store (get_state / save_state), the tool-call operations
that read and write the document, the sandbox path checks, and the LaTeX
rendering wrapper, and proves or refutes the specification claims about them.

Modelling conventions:
- JSON values are the inductive `JVal`; numbers are modelled as integers (for
  timestamps: integer milliseconds), since the claims only use ordering and
  equality of timestamps, never float-specific behaviour.
- Python dicts parsed from JSON are association lists with unique keys;
  `lookupKey` / `setKey` / `popKey` mirror d[k], d[k]=v, d.pop(k, None).
- Operations that can raise (membership tests on non-containers, attribute and
  item access) return `Except Unit`; the generic `except Exception` handler of
  the source is modelled by matching on the error case.
- The filesystem visible to the state store is `FS`: the content of the state
  file and of its `.json.backup` sibling.  File content is either parseable
  JSON (`FileContent.json`) or unparseable bytes (`FileContent.garbage`);
  `json_load` returning `none` models `json.load` raising JSONDecodeError.
-/

/-- JSON values as decoded by `json.load`.  Numeric values are modelled as
integers (timestamps: integer milliseconds). -/
inductive JVal where
  | jnull
  | jbool (b : Bool)
  | jint (n : Int)
  | jstr (s : String)
  | jarr (xs : List JVal)
  | jobj (kvs : List (String × JVal))

/-- A decoded JSON object body: the state document is one of these. -/
abbrev Doc := List (String × JVal)

/-- Python truthiness (`if selection:` / `if not selection:`) for decoded JSON
values: None, False, 0, "", [] and the empty dict are falsy. -/
def truthy : JVal → Bool
  | .jnull => false
  | .jbool b => b
  | .jint n => decide (n ≠ 0)
  | .jstr s => !s.isEmpty
  | .jarr xs => !xs.isEmpty
  | .jobj kvs => !kvs.isEmpty

/-- `d.get(key)` / `d[key]` lookup on a dict body (first match; parsed JSON
objects have unique keys). -/
def lookupKey : Doc → String → Option JVal
  | [], _ => none
  | (k, v) :: rest, key => if k = key then some v else lookupKey rest key

/-- `d[key] = v`: replace the binding if the key is present, else append. -/
def setKey : Doc → String → JVal → Doc
  | [], key, v => [(key, v)]
  | (k, w) :: rest, key, v =>
      if k = key then (key, v) :: rest else (k, w) :: setKey rest key v

/-- `d.pop(key, None)`: remove the binding for the key. -/
def popKey : Doc → String → Doc
  | [], _ => []
  | (k, w) :: rest, key =>
      if k = key then popKey rest key else (k, w) :: popKey rest key

/-- Substring test over characters: `needle in hay` for Python strings. -/
def subChars (needle : List Char) : List Char → Bool
  | [] => needle.isEmpty
  | c :: rest => needle.isPrefixOf (c :: rest) || subChars needle rest

/-- Python `needle in hay` for strings (substring containment). -/
def strContains (hay needle : String) : Bool :=
  subChars needle.data hay.data

/-- Python `field in v` for a decoded JSON value: key membership for dicts,
element equality for lists, substring test for strings; any other value
(None, bool, number) raises TypeError, modelled as `.error ()`. -/
def memJson (field : String) (v : JVal) : Except Unit Bool :=
  match v with
  | .jobj kvs => .ok (kvs.any (fun kv => kv.fst == field))
  | .jarr xs => .ok (xs.any (fun x => match x with | .jstr s => s == field | _ => false))
  | .jstr s => .ok (strContains s field)
  | _ => .error ()

/-- The required selection fields checked by get_state
(src/mcp_server.py line 61). -/
def requiredFields : List String :=
  ["file_path", "start_line", "end_line", "selected_text", "timestamp"]

/-- Short-circuiting `all(field in sel for field in fields)`: stops at the
first False, propagates a TypeError from a membership test. -/
def goFields : List String → JVal → Except Unit Bool
  | [], _ => .ok true
  | f :: rest, sel =>
      match memJson f sel with
      | .error e => .error e
      | .ok false => .ok false
      | .ok true => goFields rest sel

/-- `all(field in sel for field in required_fields)`
(src/mcp_server.py line 62). -/
def allFieldsIn (sel : JVal) : Except Unit Bool :=
  goFields requiredFields sel

/-- Content of a file on disk: either bytes that parse as JSON, or bytes that
do not (`json.load` raises JSONDecodeError on them). -/
inductive FileContent where
  | json (v : JVal)
  | garbage (bytes : String)

/-- `json.load` on file content: `none` models JSONDecodeError. -/
def json_load : FileContent → Option JVal
  | .json v => some v
  | .garbage _ => none

/-- The durable storage the state store touches: the state file
(~/.context-viewer-state.json) and its `.json.backup` sibling.  `none` means
the file does not exist. -/
structure FS where
  stateFile : Option FileContent
  backupFile : Option FileContent

/-- Embeds save_state (src/mcp_server.py lines 81-93): serialize the document,
write to a temporary file, atomically replace the state file.  The temporary
file is invisible to every reader, so only the final replace is modelled;
write failures are swallowed by the source and not modelled. -/
def save_state (doc : Doc) (fs : FS) : FS :=
  { fs with stateFile := some (.json (.jobj doc)) }

/-- Embeds get_state (src/mcp_server.py lines 45-78).  Returns the document
together with the storage left behind:
- missing file: empty document, storage untouched;
- unparseable content: the state file is renamed to the backup path and the
  empty document is returned;
- parseable non-dict content: empty document, storage untouched;
- a `selection` value on which the field-presence test raises: the generic
  exception handler returns the empty document, storage untouched;
- a `selection` missing a required field: the key is popped and the corrected
  document is immediately persisted (self-healing read);
- otherwise the parsed document is returned unchanged. -/
def get_state (fs : FS) : Doc × FS :=
  match fs.stateFile with
  | none => ([], fs)
  | some c =>
    match json_load c with
    | none => ([], { stateFile := none, backupFile := some c })
    | some v =>
      match v with
      | .jobj kvs =>
        match lookupKey kvs "selection" with
        | none => (kvs, fs)
        | some sel =>
          match allFieldsIn sel with
          | .error _ => ([], fs)
          | .ok true => (kvs, fs)
          | .ok false =>
              (popKey kvs "selection", save_state (popKey kvs "selection") fs)
      | _ => ([], fs)

/-- A document on which get_state is a pure read: either no `selection` key,
or a selection that passes the field-presence check. -/
def validDoc (st : Doc) : Bool :=
  match lookupKey st "selection" with
  | none => true
  | some sel => match allFieldsIn sel with | .ok true => true | _ => false

theorem get_state_clean (st : Doc) (bk : Option FileContent)
    (hv : validDoc st = true) :
    get_state ⟨some (.json (.jobj st)), bk⟩ = (st, ⟨some (.json (.jobj st)), bk⟩) := by
  unfold validDoc at hv
  unfold get_state json_load
  cases hsel : lookupKey st "selection" with
  | none => simp [hsel]
  | some sel =>
    simp only [hsel] at hv
    cases hall : allFieldsIn sel with
    | error e => simp only [hall] at hv; exact Bool.noConfusion hv
    | ok b =>
      cases b with
      | true => simp [hsel, hall]
      | false => simp only [hall] at hv; exact Bool.noConfusion hv

/-- C2: get_state never raises for missing or corrupted storage: a missing
state file yields the empty document; malformed content makes the store rename
the unreadable file (with its original bytes) to the backup path and return
the empty document; and a subsequent read returns the empty document without
touching the backup again. -/
theorem get_state_corruption_recovery (b : String) (bk : Option FileContent) :
    get_state ⟨none, bk⟩ = ([], ⟨none, bk⟩) ∧
    get_state ⟨some (.garbage b), bk⟩ = ([], ⟨none, some (.garbage b)⟩) ∧
    get_state (get_state ⟨some (.garbage b), bk⟩).2 =
      ([], ⟨none, some (.garbage b)⟩) :=
  ⟨rfl, rfl, rfl⟩

theorem lookup_setKey_ne (st : Doc) (key k : String) (v : JVal) (h : k ≠ key) :
    lookupKey (setKey st key v) k = lookupKey st k := by
  induction st with
  | nil => simp [setKey, lookupKey, h, Ne.symm h]
  | cons hd tl ih =>
    obtain ⟨k0, w⟩ := hd
    by_cases hk : k0 = key
    · subst hk
      simp [setKey, lookupKey, h, Ne.symm h]
    · simp [setKey, lookupKey, hk]
      by_cases hk2 : k0 = k
      · simp [hk2]
      · simp [hk2, ih]

theorem lookup_setKey_self (st : Doc) (key : String) (v : JVal) :
    lookupKey (setKey st key v) key = some v := by
  induction st with
  | nil => simp [setKey, lookupKey]
  | cons hd tl ih =>
    obtain ⟨k0, w⟩ := hd
    by_cases hk : k0 = key
    · simp [setKey, lookupKey, hk]
    · simp [setKey, lookupKey, hk, ih]

theorem lookup_popKey_self (st : Doc) (key : String) :
    lookupKey (popKey st key) key = none := by
  induction st with
  | nil => simp [popKey, lookupKey]
  | cons hd tl ih =>
    obtain ⟨k0, w⟩ := hd
    by_cases hk : k0 = key
    · simp [popKey, lookupKey, hk, ih]
    · simp [popKey, lookupKey, hk, ih]

theorem lookup_popKey_ne (st : Doc) (key k : String) (h : k ≠ key) :
    lookupKey (popKey st key) k = lookupKey st k := by
  induction st with
  | nil => simp [popKey, lookupKey]
  | cons hd tl ih =>
    obtain ⟨k0, w⟩ := hd
    by_cases hk : k0 = key
    · subst hk
      simp [popKey, lookupKey, Ne.symm h, ih]
    · simp [popKey, lookupKey, hk]
      by_cases hk2 : k0 = k
      · simp [hk2]
      · simp [hk2, ih]

/-- Observation helper used only in theorem statements: the binding of a key
in the document currently stored in the state file. -/
def storedLookup (fs : FS) (k : String) : Option JVal :=
  match fs.stateFile with
  | some (.json (.jobj kvs)) => lookupKey kvs k
  | _ => none

/-- `d.get(key, default)` — requires a dict; on any other value the attribute
access raises (AttributeError), modelled as `.error ()`. -/
def jGet (v : JVal) (key : String) (dflt : JVal) : Except Unit JVal :=
  match v with
  | .jobj kvs => .ok ((lookupKey kvs key).getD dflt)
  | _ => .error ()

/-- `v[key]` with a string key: KeyError on a dict without the key, TypeError
on any non-dict; both modelled as `.error ()`. -/
def jIndex (v : JVal) (key : String) : Except Unit JVal :=
  match v with
  | .jobj kvs =>
    match lookupKey kvs key with
    | some x => .ok x
    | none => .error ()
  | _ => .error ()

/-- Python `v > t` against a number: defined for numbers and bools (True = 1),
a TypeError for every other operand, modelled as `.error ()`. -/
def jGtInt (v : JVal) (t : Int) : Except Unit Bool :=
  match v with
  | .jint n => .ok (decide (n > t))
  | .jbool b => .ok (decide ((if b then (1 : Int) else 0) > t))
  | _ => .error ()

/-- Embeds the state-document effect of start_http_server (src/mcp_server.py
lines 96-113): after spawning the HTTP server it calls
save_state with a freshly built two-key dict — a blind overwrite of the whole
document, not a read-modify-merge-write. -/
def start_http_server_state (url : String) (pid : Int) (fs : FS) : FS :=
  save_state [("server_url", .jstr url), ("server_pid", .jint pid)] fs

/-- Embeds the clear_selection tool branch (src/mcp_server.py lines 549-558):
read the document, pop the selection key, persist. -/
def clear_selection (fs : FS) : FS :=
  save_state (popKey (get_state fs).1 "selection") (get_state fs).2

/-- Result of the immediate-mode get_selection branch. -/
inductive ImmediateOutcome where
  | found (filePath startLine endLine selectedText : JVal)
  | noSelectionMsg
  | raisedError

/-- Embeds the immediate-mode get_selection branch (src/mcp_server.py lines
515-547): one read; a falsy/absent selection yields the normal
"No selection available" message; otherwise the selection key is optionally
popped and persisted before the selection's fields are rendered.  A field
access that raises is caught by call_tool's generic handler
(`raisedError`). -/
def getSelectionImmediate (fs : FS) (clearAfterRead : Bool) : ImmediateOutcome × FS :=
  match lookupKey (get_state fs).1 "selection" with
  | none => (.noSelectionMsg, (get_state fs).2)
  | some sel =>
    if truthy sel = false then (.noSelectionMsg, (get_state fs).2)
    else
      (match jIndex sel "file_path", jIndex sel "start_line",
             jIndex sel "end_line", jIndex sel "selected_text" with
       | .ok fp, .ok sl, .ok el, .ok tx => .found fp sl el tx
       | _, _, _, _ => .raisedError,
       if clearAfterRead
         then save_state (popKey (get_state fs).1 "selection") (get_state fs).2
         else (get_state fs).2)

/-- Response of the selection-confirm HTTP endpoint. -/
inductive ConfirmResponse where
  | okStatus

/-- Embeds FileServerHandler.handle_confirm_selection (src/server.py lines
120-137): it parses the posted selection, prints it to the terminal and
replies with status ok.  It performs no write to the state file, so the
persisted storage is returned unchanged. -/
def handle_confirm_selection (fs : FS) (_postData : JVal) : FS × ConfirmResponse :=
  (fs, .okStatus)

/-- C1: the UI's selection-confirm operation does not publish the selection:
for a fully-populated posted Selection and a well-formed empty state document,
confirming leaves the storage unchanged and an immediately following
getSelection with clearAfterRead=false returns the "no selection" message
instead of the published Selection. -/
theorem confirm_selection_does_not_publish :
    (handle_confirm_selection ⟨some (.json (.jobj [])), none⟩
        (.jobj [("file_path", .jstr "a.py"), ("start_line", .jint 10),
                ("end_line", .jint 12), ("selected_text", .jstr "x=1")])).1 =
      ⟨some (.json (.jobj [])), none⟩ ∧
    (getSelectionImmediate
        (handle_confirm_selection ⟨some (.json (.jobj [])), none⟩
          (.jobj [("file_path", .jstr "a.py"), ("start_line", .jint 10),
                  ("end_line", .jint 12), ("selected_text", .jstr "x=1")])).1
        false).1 = .noSelectionMsg :=
  ⟨rfl, rfl⟩

/-- C3 counterexample: the open_viewer server-metadata write is a blind
overwrite: starting from a document holding an unrelated (unknown) key, the
write performed by start_http_server drops that key from the persisted
document. -/
theorem open_viewer_overwrite_drops_keys :
    lookupKey [("custom_key", JVal.jstr "v")] "custom_key" = some (.jstr "v") ∧
    storedLookup
      (start_http_server_state "http://localhost:8765" 4242
        ⟨some (.json (.jobj [("custom_key", JVal.jstr "v")])), none⟩)
      "custom_key" = none :=
  ⟨rfl, rfl⟩

/-- The navigation-command dict body built by the navigate_to_* tool branches
(src/mcp_server.py lines 567-573, 591-597, 615-621). -/
def navCommandBody (cmd fp : String) (target : JVal) (now : Int) : Doc :=
  [("command", .jstr cmd), ("file_path", .jstr fp), ("target", target),
   ("timestamp", .jint now), ("executed", .jbool false)]

/-- The navigation-command dict as a JSON value. -/
def navCommandObj (cmd fp : String) (target : JVal) (now : Int) : JVal :=
  .jobj (navCommandBody cmd fp target now)

/-- Common shape of the three navigate_to_* branches: read the document, set
the navigation slot to a fresh command stamped `now` with executed=false, and
persist the merged document. -/
def navPublish (cmd fp : String) (target : JVal) (now : Int) (fs : FS) : FS :=
  save_state (setKey (get_state fs).1 "navigation" (navCommandObj cmd fp target now))
    (get_state fs).2

/-- Embeds the navigate_to_line tool branch (src/mcp_server.py lines
560-582). -/
def navigate_to_line (path : String) (line : Int) (now : Int) (fs : FS) : FS :=
  navPublish "goto_line" path (.jint line) now fs

/-- Embeds the navigate_to_text tool branch (src/mcp_server.py lines
584-606). -/
def navigate_to_text (path text : String) (now : Int) (fs : FS) : FS :=
  navPublish "search_text" path (.jstr text) now fs

/-- Embeds the navigate_to_function tool branch (src/mcp_server.py lines
608-630). -/
def navigate_to_function (path fname : String) (now : Int) (fs : FS) : FS :=
  navPublish "find_function" path (.jstr fname) now fs

/-- Modelled from the spec: `acknowledgeNavigation(timestamp)` (spec section
4.3 and the navigation-acknowledge endpoint of section 6).  The UI-side
acknowledgement operation is absent from src/ — server.py exposes no
navigation endpoint and mcp_server.py has no acknowledging tool — so it is
modelled from the spec's words, layered on the State Store like the writers in
the source: read the document; if the current navigation entry's timestamp
equals the supplied timestamp, set executed=true and persist the merged
document; otherwise a no-op. -/
def acknowledgeNavigation (t : Int) (fs : FS) : FS :=
  match lookupKey (get_state fs).1 "navigation" with
  | some (.jobj nav) =>
    match lookupKey nav "timestamp" with
    | some (.jint ts) =>
      if ts = t then
        save_state (setKey (get_state fs).1 "navigation"
          (.jobj (setKey nav "executed" (.jbool true)))) (get_state fs).2
      else (get_state fs).2
    | _ => (get_state fs).2
  | _ => (get_state fs).2

/-- Observation helper for theorem statements: the executed flag of the stored
navigation entry. -/
def navExecuted (fs : FS) : Option JVal :=
  match storedLookup fs "navigation" with
  | some (.jobj nav) => lookupKey nav "executed"
  | _ => none

/-- Observation helper for theorem statements: the timestamp of the stored
navigation entry. -/
def navTimestamp (fs : FS) : Option JVal :=
  match storedLookup fs "navigation" with
  | some (.jobj nav) => lookupKey nav "timestamp"
  | _ => none

theorem validDoc_setKey_nav (st : Doc) (v : JVal) (hv : validDoc st = true) :
    validDoc (setKey st "navigation" v) = true := by
  unfold validDoc at hv ⊢
  rw [lookup_setKey_ne st "navigation" "selection" v (by decide)]
  exact hv

theorem navPublish_clean (cmd fp : String) (target : JVal) (now : Int)
    (st : Doc) (bk : Option FileContent) (hv : validDoc st = true) :
    navPublish cmd fp target now ⟨some (.json (.jobj st)), bk⟩ =
      ⟨some (.json (.jobj (setKey st "navigation" (navCommandObj cmd fp target now)))), bk⟩ := by
  unfold navPublish
  rw [get_state_clean st bk hv]
  rfl

theorem ack_matching (st nav : Doc) (bk : Option FileContent) (t : Int)
    (hv : validDoc st = true)
    (hnav : lookupKey st "navigation" = some (.jobj nav))
    (hts : lookupKey nav "timestamp" = some (.jint t)) :
    acknowledgeNavigation t ⟨some (.json (.jobj st)), bk⟩ =
      ⟨some (.json (.jobj (setKey st "navigation"
        (.jobj (setKey nav "executed" (.jbool true)))))), bk⟩ := by
  unfold acknowledgeNavigation
  rw [get_state_clean st bk hv]
  simp [hnav, hts, save_state]

theorem ack_mismatch (st nav : Doc) (bk : Option FileContent) (t ts : Int)
    (hv : validDoc st = true)
    (hnav : lookupKey st "navigation" = some (.jobj nav))
    (hts : lookupKey nav "timestamp" = some (.jint ts))
    (hne : ts ≠ t) :
    acknowledgeNavigation t ⟨some (.json (.jobj st)), bk⟩ =
      ⟨some (.json (.jobj st)), bk⟩ := by
  unfold acknowledgeNavigation
  rw [get_state_clean st bk hv]
  simp [hnav, hts, hne]

theorem navBody_timestamp (cmd fp : String) (target : JVal) (now : Int) :
    lookupKey (navCommandBody cmd fp target now) "timestamp" = some (.jint now) := by
  simp [navCommandBody, lookupKey]

theorem navBody_executed (cmd fp : String) (target : JVal) (now : Int) :
    lookupKey (navCommandBody cmd fp target now) "executed" = some (.jbool false) := by
  simp [navCommandBody, lookupKey]

theorem navExecuted_stored (st : Doc) (bk : Option FileContent) (nav : Doc)
    (hnav : lookupKey st "navigation" = some (.jobj nav)) :
    navExecuted ⟨some (.json (.jobj st)), bk⟩ = lookupKey nav "executed" := by
  simp [navExecuted, storedLookup, hnav]

theorem navTimestamp_stored (st : Doc) (bk : Option FileContent) (nav : Doc)
    (hnav : lookupKey st "navigation" = some (.jobj nav)) :
    navTimestamp ⟨some (.json (.jobj st)), bk⟩ = lookupKey nav "timestamp" := by
  simp [navTimestamp, storedLookup, hnav]

/-- C5: acknowledgeNavigation only acts on a timestamp match.  Publishing a
navigation command at time t1 stores it with executed=false; acknowledging
with the matching timestamp flips executed to true (keeping the timestamp);
after a newer command is published at t2 with executed=false, a stale
acknowledgement with t1 is a no-op on the stored document and the newer
command's executed flag stays false.  (acknowledgeNavigation is modelled from
the spec, the navigate_to_* publishers from the source.) -/
theorem acknowledge_navigation_guard (st : Doc) (bk : Option FileContent)
    (path1 path2 txt : String) (line t1 t2 : Int)
    (hv : validDoc st = true) (hne : t1 ≠ t2) :
    navExecuted (navigate_to_line path1 line t1 ⟨some (.json (.jobj st)), bk⟩) =
        some (.jbool false) ∧
    navExecuted (acknowledgeNavigation t1
        (navigate_to_line path1 line t1 ⟨some (.json (.jobj st)), bk⟩)) =
        some (.jbool true) ∧
    navTimestamp (acknowledgeNavigation t1
        (navigate_to_line path1 line t1 ⟨some (.json (.jobj st)), bk⟩)) =
        some (.jint t1) ∧
    navExecuted (navigate_to_text path2 txt t2 (acknowledgeNavigation t1
        (navigate_to_line path1 line t1 ⟨some (.json (.jobj st)), bk⟩))) =
        some (.jbool false) ∧
    acknowledgeNavigation t1 (navigate_to_text path2 txt t2 (acknowledgeNavigation t1
        (navigate_to_line path1 line t1 ⟨some (.json (.jobj st)), bk⟩))) =
      navigate_to_text path2 txt t2 (acknowledgeNavigation t1
        (navigate_to_line path1 line t1 ⟨some (.json (.jobj st)), bk⟩)) ∧
    navExecuted (acknowledgeNavigation t1 (navigate_to_text path2 txt t2
        (acknowledgeNavigation t1 (navigate_to_line path1 line t1
          ⟨some (.json (.jobj st)), bk⟩)))) = some (.jbool false) := by
  have h1 : navigate_to_line path1 line t1 ⟨some (.json (.jobj st)), bk⟩ =
      ⟨some (.json (.jobj (setKey st "navigation"
        (navCommandObj "goto_line" path1 (.jint line) t1)))), bk⟩ :=
    navPublish_clean "goto_line" path1 (.jint line) t1 st bk hv
  have hv1 : validDoc (setKey st "navigation"
      (navCommandObj "goto_line" path1 (.jint line) t1)) = true :=
    validDoc_setKey_nav st _ hv
  have hnav1 : lookupKey (setKey st "navigation"
      (navCommandObj "goto_line" path1 (.jint line) t1)) "navigation" =
      some (.jobj (navCommandBody "goto_line" path1 (.jint line) t1)) :=
    lookup_setKey_self st "navigation" _
  have h2 : acknowledgeNavigation t1
      (navigate_to_line path1 line t1 ⟨some (.json (.jobj st)), bk⟩) =
      ⟨some (.json (.jobj (setKey (setKey st "navigation"
          (navCommandObj "goto_line" path1 (.jint line) t1)) "navigation"
        (.jobj (setKey (navCommandBody "goto_line" path1 (.jint line) t1)
          "executed" (.jbool true)))))), bk⟩ := by
    rw [h1]
    exact ack_matching _ _ bk t1 hv1 hnav1 (navBody_timestamp _ _ _ _)
  have hv2 : validDoc (setKey (setKey st "navigation"
      (navCommandObj "goto_line" path1 (.jint line) t1)) "navigation"
      (.jobj (setKey (navCommandBody "goto_line" path1 (.jint line) t1)
        "executed" (.jbool true)))) = true :=
    validDoc_setKey_nav _ _ hv1
  have hnav2 : lookupKey (setKey (setKey st "navigation"
      (navCommandObj "goto_line" path1 (.jint line) t1)) "navigation"
      (.jobj (setKey (navCommandBody "goto_line" path1 (.jint line) t1)
        "executed" (.jbool true)))) "navigation" =
      some (.jobj (setKey (navCommandBody "goto_line" path1 (.jint line) t1)
        "executed" (.jbool true))) :=
    lookup_setKey_self _ "navigation" _
  have h3 : navigate_to_text path2 txt t2 (acknowledgeNavigation t1
      (navigate_to_line path1 line t1 ⟨some (.json (.jobj st)), bk⟩)) =
      ⟨some (.json (.jobj (setKey (setKey (setKey st "navigation"
          (navCommandObj "goto_line" path1 (.jint line) t1)) "navigation"
          (.jobj (setKey (navCommandBody "goto_line" path1 (.jint line) t1)
            "executed" (.jbool true)))) "navigation"
          (navCommandObj "search_text" path2 (.jstr txt) t2)))), bk⟩ := by
    rw [h2]
    exact navPublish_clean "search_text" path2 (.jstr txt) t2 _ bk hv2
  have hv3 : validDoc (setKey (setKey (setKey st "navigation"
      (navCommandObj "goto_line" path1 (.jint line) t1)) "navigation"
      (.jobj (setKey (navCommandBody "goto_line" path1 (.jint line) t1)
        "executed" (.jbool true)))) "navigation"
      (navCommandObj "search_text" path2 (.jstr txt) t2)) = true :=
    validDoc_setKey_nav _ _ hv2
  have hnav3 : lookupKey (setKey (setKey (setKey st "navigation"
      (navCommandObj "goto_line" path1 (.jint line) t1)) "navigation"
      (.jobj (setKey (navCommandBody "goto_line" path1 (.jint line) t1)
        "executed" (.jbool true)))) "navigation"
      (navCommandObj "search_text" path2 (.jstr txt) t2)) "navigation" =
      some (.jobj (navCommandBody "search_text" path2 (.jstr txt) t2)) :=
    lookup_setKey_self _ "navigation" _
  refine ⟨?_, ?_, ?_, ?_, ?_, ?_⟩
  · rw [h1, navExecuted_stored _ bk _ hnav1]
    exact navBody_executed _ _ _ _
  · rw [h2, navExecuted_stored _ bk _ hnav2]
    exact lookup_setKey_self _ "executed" _
  · rw [h2, navTimestamp_stored _ bk _ hnav2,
        lookup_setKey_ne _ "executed" "timestamp" _ (by decide)]
    exact navBody_timestamp _ _ _ _
  · rw [h3, navExecuted_stored _ bk _ hnav3]
    exact navBody_executed _ _ _ _
  · rw [h3]
    exact ack_mismatch _ _ bk t1 t2 hv3 hnav3 (navBody_timestamp _ _ _ _)
      (Ne.symm hne)
  · rw [h3, ack_mismatch _ _ bk t1 t2 hv3 hnav3 (navBody_timestamp _ _ _ _)
      (Ne.symm hne), navExecuted_stored _ bk _ hnav3]
    exact navBody_executed _ _ _ _

/-- Witness for C5 at concrete inputs. -/
theorem acknowledge_navigation_guard_witness :
    navExecuted (navigate_to_line "a.py" 3 100 ⟨some (.json (.jobj [])), none⟩) =
        some (.jbool false) ∧
    navExecuted (acknowledgeNavigation 100
        (navigate_to_line "a.py" 3 100 ⟨some (.json (.jobj [])), none⟩)) =
        some (.jbool true) ∧
    navExecuted (acknowledgeNavigation 100 (navigate_to_text "b.py" "q" 200
        (acknowledgeNavigation 100 (navigate_to_line "a.py" 3 100
          ⟨some (.json (.jobj [])), none⟩)))) = some (.jbool false) := by
  have h := acknowledge_navigation_guard [] none "a.py" "b.py" "q" 3 100 200
    (by decide) (by decide)
  exact ⟨h.1, h.2.1, h.2.2.2.2.2⟩

/-- C3 amended: the selection clear/consume writes and each navigate_to_*
publish are read-modify-merge-writes: every key other than the one logical
slot being written — unknown keys included — is preserved in the persisted
document.  (The open_viewer server-metadata write is the exception shown by
the counterexample: it replaces the whole document.) -/
theorem writes_preserve_unrelated_keys (st : Doc) (bk : Option FileContent)
    (hv : validDoc st = true) (k path text fname : String) (line now : Int) :
    (k ≠ "navigation" →
      storedLookup (navigate_to_line path line now ⟨some (.json (.jobj st)), bk⟩) k =
          lookupKey st k ∧
      storedLookup (navigate_to_text path text now ⟨some (.json (.jobj st)), bk⟩) k =
          lookupKey st k ∧
      storedLookup (navigate_to_function path fname now ⟨some (.json (.jobj st)), bk⟩) k =
          lookupKey st k) ∧
    (k ≠ "selection" →
      storedLookup (clear_selection ⟨some (.json (.jobj st)), bk⟩) k = lookupKey st k ∧
      storedLookup (getSelectionImmediate ⟨some (.json (.jobj st)), bk⟩ true).2 k =
          lookupKey st k ∧
      (getSelectionImmediate ⟨some (.json (.jobj st)), bk⟩ false).2 =
          ⟨some (.json (.jobj st)), bk⟩) := by
  constructor
  · intro hk
    refine ⟨?_, ?_, ?_⟩
    · rw [navigate_to_line, navPublish_clean "goto_line" path (.jint line) now st bk hv]
      simp only [storedLookup]
      exact lookup_setKey_ne st "navigation" k _ hk
    · rw [navigate_to_text, navPublish_clean "search_text" path (.jstr text) now st bk hv]
      simp only [storedLookup]
      exact lookup_setKey_ne st "navigation" k _ hk
    · rw [navigate_to_function,
          navPublish_clean "find_function" path (.jstr fname) now st bk hv]
      simp only [storedLookup]
      exact lookup_setKey_ne st "navigation" k _ hk
  · intro hk
    refine ⟨?_, ?_, ?_⟩
    · unfold clear_selection
      rw [get_state_clean st bk hv]
      simp only [save_state, storedLookup]
      exact lookup_popKey_ne st "selection" k hk
    · unfold getSelectionImmediate
      rw [get_state_clean st bk hv]
      cases hsel : lookupKey st "selection" with
      | none => simp [hsel, storedLookup]
      | some sel =>
        by_cases ht : truthy sel = false
        · simp [hsel, ht, storedLookup]
        · simp only [hsel, ht, if_false, if_true, save_state, storedLookup]
          simp
          exact lookup_popKey_ne st "selection" k hk
    · unfold getSelectionImmediate
      rw [get_state_clean st bk hv]
      cases hsel : lookupKey st "selection" with
      | none => simp [hsel]
      | some sel =>
        by_cases ht : truthy sel = false
        · simp [hsel, ht]
        · simp [hsel, ht]

/-- Witness for C3 at concrete inputs: a document with an unknown key and a
valid selection keeps the unknown key across a navigation publish and across
a clearing consume. -/
theorem writes_preserve_unrelated_keys_witness :
    storedLookup (navigate_to_line "a.py" 7 100
        ⟨some (.json (.jobj [("custom_key", JVal.jstr "v")])), none⟩) "custom_key" =
      some (.jstr "v") ∧
    storedLookup (clear_selection
        ⟨some (.json (.jobj [("custom_key", JVal.jstr "v")])), none⟩) "custom_key" =
      some (.jstr "v") := by
  have h := writes_preserve_unrelated_keys [("custom_key", JVal.jstr "v")] none
    (by decide) "custom_key" "a.py" "t" "f" 7 100
  exact ⟨((h.1 (by decide)).1).trans rfl, ((h.2 (by decide)).1).trans rfl⟩

/-- One iteration's test of the wait-mode polling loop (src/mcp_server.py line
488): `if selection and selection.get("timestamp", 0) > start_time`.  Returns
the selection when the test passes, `none` when it fails, and an error when
the attribute access or the comparison raises. -/
def selGuard (doc : Doc) (startTime : Int) : Except Unit (Option JVal) :=
  match lookupKey doc "selection" with
  | none => .ok none
  | some sel =>
    if truthy sel = false then .ok none
    else
      match jGet sel "timestamp" (.jint 0) with
      | .error e => .error e
      | .ok tsv =>
        match jGtInt tsv startTime with
        | .error e => .error e
        | .ok true => .ok (some sel)
        | .ok false => .ok none

/-- Result of the wait-mode get_selection branch: a fresh selection found at
some poll, the normal non-error timeout message ("No selection made within N
seconds."), or the error text produced by call_tool's exception handler. -/
inductive BlockOutcome where
  | found (sel : JVal) (pollIndex : Nat)
  | timedOutMsg
  | raisedError

/-- The polling loop of the wait-mode get_selection branch (src/mcp_server.py
lines 483-506), with time idealized so that poll k happens 500k ms after the
wait starts (the loop body sleeps exactly 0.5 s and reads take no time).
`trace k` is the document get_state returns at poll k; `fuel` is the number
of remaining loop iterations. -/
def blockingAux (trace : Nat → Doc) (startTime : Int) : Nat → Nat → BlockOutcome
  | _, 0 => .timedOutMsg
  | k, fuel + 1 =>
    match selGuard (trace k) startTime with
    | .error _ => .raisedError
    | .ok (some sel) => .found sel k
    | .ok none => blockingAux trace startTime (k + 1) fuel

/-- Number of iterations of `while time.time() - start_time < timeout` under
the idealized schedule: poll k runs iff 500k < timeoutMs, so the loop runs
ceil(timeoutMs / 500) times (0 for non-positive timeouts). -/
def numPolls (timeoutMs : Int) : Nat :=
  (timeoutMs + 499).toNat / 500

/-- Embeds the wait-mode get_selection branch (src/mcp_server.py lines
477-514): poll every 500 ms from the wait's start until a selection with
timestamp strictly greater than the start time appears or the timeout
elapses. -/
def getSelectionBlocking (trace : Nat → Doc) (startTime timeoutMs : Int) :
    BlockOutcome :=
  blockingAux trace startTime 0 (numPolls timeoutMs)

theorem numPolls_iff (timeoutMs : Int) (k : Nat) :
    k < numPolls timeoutMs ↔ 500 * (k : Int) < timeoutMs := by
  unfold numPolls
  omega

theorem blockingAux_found (trace : Nat → Doc) (startTime : Int) :
    ∀ fuel k sel j, blockingAux trace startTime k fuel = .found sel j →
      selGuard (trace j) startTime = .ok (some sel) := by
  intro fuel
  induction fuel with
  | zero =>
    intro k sel j h
    simp [blockingAux] at h
  | succ n ih =>
    intro k sel j h
    cases hg : selGuard (trace k) startTime with
    | error e => simp [blockingAux, hg] at h
    | ok o =>
      cases o with
      | some s =>
        simp only [blockingAux, hg] at h
        obtain ⟨hs, hk⟩ := BlockOutcome.found.inj h
        subst hs
        subst hk
        exact hg
      | none =>
        simp only [blockingAux, hg] at h
        exact ih (k + 1) sel j h

theorem selGuard_found (doc : Doc) (t : Int) (sel : JVal)
    (h : selGuard doc t = .ok (some sel)) :
    ∃ tsv, jGet sel "timestamp" (.jint 0) = .ok tsv ∧ jGtInt tsv t = .ok true := by
  unfold selGuard at h
  cases hsel : lookupKey doc "selection" with
  | none =>
    rw [hsel] at h
    exact Option.noConfusion (Except.ok.inj h)
  | some s =>
    rw [hsel] at h
    dsimp only at h
    by_cases ht : truthy s = false
    · rw [if_pos ht] at h
      exact Option.noConfusion (Except.ok.inj h)
    · rw [if_neg ht] at h
      cases hget : jGet s "timestamp" (.jint 0) with
      | error e =>
        rw [hget] at h
        exact Except.noConfusion h
      | ok tsv =>
        rw [hget] at h
        dsimp only at h
        cases hgt : jGtInt tsv t with
        | error e =>
          rw [hgt] at h
          exact Except.noConfusion h
        | ok b =>
          rw [hgt] at h
          cases b with
          | true =>
            have hs : s = sel := Option.some.inj (Except.ok.inj h)
            subst hs
            exact ⟨tsv, hget, hgt⟩
          | false => exact Option.noConfusion (Except.ok.inj h)

theorem blockingAux_timeout (trace : Nat → Doc) (startTime : Int) :
    ∀ fuel k, (∀ j, k ≤ j → j < k + fuel → selGuard (trace j) startTime = .ok none) →
      blockingAux trace startTime k fuel = .timedOutMsg := by
  intro fuel
  induction fuel with
  | zero => intro k _; rfl
  | succ n ih =>
    intro k hall
    have hk : selGuard (trace k) startTime = .ok none :=
      hall k (Nat.le_refl k) (by omega)
    simp only [blockingAux, hk]
    exact ih (k + 1) (fun j h1 h2 => hall j (by omega) (by omega))

/-- C4: the wait-mode get_selection polls on a fixed 500 ms interval (poll k
runs iff 500k ms is under the timeout), returns a selection only when the
guard accepted it at some poll — which requires its timestamp to be strictly
greater than the wait's start time — times out to the normal non-error
message whenever every poll's guard rejects, and in particular times out when
the only selection in the trace is a constant one whose timestamp is at most
the start time (a pre-existing selection never satisfies the wait). -/
theorem get_selection_blocking_spec (trace : Nat → Doc) (startTime timeoutMs : Int) :
    (∀ sel k, getSelectionBlocking trace startTime timeoutMs = .found sel k →
      selGuard (trace k) startTime = .ok (some sel) ∧
      ∃ tsv, jGet sel "timestamp" (.jint 0) = .ok tsv ∧
        jGtInt tsv startTime = .ok true) ∧
    ((∀ k, k < numPolls timeoutMs → selGuard (trace k) startTime = .ok none) →
      getSelectionBlocking trace startTime timeoutMs = .timedOutMsg) ∧
    (∀ k, k < numPolls timeoutMs ↔ 500 * (k : Int) < timeoutMs) ∧
    (∀ sel0 ts, (∀ k, trace k = trace 0) →
      lookupKey (trace 0) "selection" = some sel0 →
      jGet sel0 "timestamp" (.jint 0) = .ok (.jint ts) → ts ≤ startTime →
      getSelectionBlocking trace startTime timeoutMs = .timedOutMsg) ∧
    BlockOutcome.timedOutMsg ≠ BlockOutcome.raisedError := by
  refine ⟨?_, ?_, numPolls_iff timeoutMs, ?_, by intro h; cases h⟩
  · intro sel k h
    have hg := blockingAux_found trace startTime (numPolls timeoutMs) 0 sel k h
    exact ⟨hg, selGuard_found (trace k) startTime sel hg⟩
  · intro hall
    exact blockingAux_timeout trace startTime (numPolls timeoutMs) 0
      (fun j h1 h2 => hall j (by omega))
  · intro sel0 ts hconst hsel hts hle
    have hguard : selGuard (trace 0) startTime = .ok none := by
      unfold selGuard
      rw [hsel]
      by_cases ht : truthy sel0 = false
      · simp [ht]
      · have : jGtInt (.jint ts) startTime = .ok false := by
          simp [jGtInt]
          omega
        simp [ht, hts, this]
    exact blockingAux_timeout trace startTime (numPolls timeoutMs) 0
      (fun j h1 h2 => by rw [hconst j]; exact hguard)

/-- Witness for C4 at concrete inputs: a constant trace holding a well-formed
selection stamped 500 ms, a wait starting at 1000 ms with a 1500 ms timeout:
the pre-existing selection is never returned and the wait times out with the
normal message. -/
theorem get_selection_blocking_spec_witness :
    getSelectionBlocking
      (fun _ => [("selection", JVal.jobj
        [("file_path", .jstr "old.py"), ("start_line", .jint 1),
         ("end_line", .jint 5), ("selected_text", .jstr "old code"),
         ("timestamp", .jint 500)])]) 1000 1500 = .timedOutMsg :=
  (get_selection_blocking_spec
      (fun _ => [("selection", JVal.jobj
        [("file_path", .jstr "old.py"), ("start_line", .jint 1),
         ("end_line", .jint 5), ("selected_text", .jstr "old code"),
         ("timestamp", .jint 500)])]) 1000 1500).2.2.2.1
    (JVal.jobj
        [("file_path", .jstr "old.py"), ("start_line", .jint 1),
         ("end_line", .jint 5), ("selected_text", .jstr "old code"),
         ("timestamp", .jint 500)]) 500
    (fun _ => rfl) rfl rfl (by decide)

theorem goFields_obj (kvs : Doc) :
    ∀ fields, goFields fields (.jobj kvs) =
      .ok (fields.all (fun f => kvs.any (fun kv => kv.fst == f))) := by
  intro fields
  induction fields with
  | nil => rfl
  | cons f rest ih =>
    simp only [goFields, memJson]
    cases hany : kvs.any (fun kv => kv.fst == f) with
    | false => simp [hany]
    | true => simp [hany, ih]

/-- C6: a state document whose selection is an object missing one of the five
required fields is healed on read: get_state returns the document with the
selection key removed and immediately persists that corrected document, and
the returned document indeed has no selection key. -/
theorem get_state_self_heals_partial_selection (st kvs : Doc)
    (bk : Option FileContent)
    (hsel : lookupKey st "selection" = some (.jobj kvs))
    (hmiss : requiredFields.all (fun f => kvs.any (fun kv => kv.fst == f)) = false) :
    get_state ⟨some (.json (.jobj st)), bk⟩ =
      (popKey st "selection", ⟨some (.json (.jobj (popKey st "selection"))), bk⟩) ∧
    lookupKey (popKey st "selection") "selection" = none := by
  have hall : allFieldsIn (.jobj kvs) = .ok false := by
    rw [allFieldsIn, goFields_obj kvs requiredFields, hmiss]
  constructor
  · unfold get_state json_load
    simp [hsel, hall, save_state]
  · exact lookup_popKey_self st "selection"

/-- Witness for C6: a selection object holding only file_path (missing
end_line among others) is dropped and the corrected document persisted. -/
theorem get_state_self_heals_partial_selection_witness :
    lookupKey [("selection", JVal.jobj [("file_path", JVal.jstr "test.py")])]
        "selection" = some (.jobj [("file_path", JVal.jstr "test.py")]) ∧
    get_state ⟨some (.json (.jobj
        [("selection", JVal.jobj [("file_path", JVal.jstr "test.py")])])), none⟩ =
      ([], ⟨some (.json (.jobj [])), none⟩) :=
  ⟨rfl,
    ((get_state_self_heals_partial_selection
      [("selection", JVal.jobj [("file_path", JVal.jstr "test.py")])]
      [("file_path", JVal.jstr "test.py")] none rfl (by decide)).1).trans rfl⟩

/-- The Selection shape as the spec declares it (section 3): filePath a
string, startLine an integer at least 1, endLine an integer at least
startLine, selectedText a string, timestamp a number.  Stated over the
source's snake_case keys; used only to compare the spec's words with what
get_state actually guarantees. -/
def specSelectionShape (sel : JVal) : Bool :=
  match sel with
  | .jobj kvs =>
    (match lookupKey kvs "file_path" with
     | some (.jstr _) => true
     | _ => false) &&
    (match lookupKey kvs "start_line", lookupKey kvs "end_line" with
     | some (.jint s), some (.jint e) => decide (1 ≤ s) && decide (s ≤ e)
     | _, _ => false) &&
    (match lookupKey kvs "selected_text" with
     | some (.jstr _) => true
     | _ => false) &&
    (match lookupKey kvs "timestamp" with
     | some (.jint _) => true
     | _ => false)
  | _ => false

/-- C7 counterexample: get_state only checks that the five field names are
present, never their types or ranges: a stored selection with all five keys
but an integer file_path, start_line 0 and end_line below start_line is
returned unchanged by get_state, although it does not conform to the spec's
declared Selection shape. -/
theorem get_state_returns_ill_typed_selection :
    lookupKey (get_state ⟨some (.json (.jobj [("selection", JVal.jobj
        [("file_path", .jint 42), ("start_line", .jint 0), ("end_line", .jint (-3)),
         ("selected_text", .jnull), ("timestamp", .jstr "later")])])), none⟩).1
      "selection" =
      some (.jobj
        [("file_path", .jint 42), ("start_line", .jint 0), ("end_line", .jint (-3)),
         ("selected_text", .jnull), ("timestamp", .jstr "later")]) ∧
    specSelectionShape (.jobj
        [("file_path", .jint 42), ("start_line", .jint 0), ("end_line", .jint (-3)),
         ("selected_text", .jnull), ("timestamp", .jstr "later")]) = false ∧
    (get_state ⟨some (.json (.jobj [("selection", JVal.jobj
        [("file_path", .jint 42), ("start_line", .jint 0), ("end_line", .jint (-3)),
         ("selected_text", .jnull), ("timestamp", .jstr "later")])])), none⟩).2 =
      ⟨some (.json (.jobj [("selection", JVal.jobj
        [("file_path", .jint 42), ("start_line", .jint 0), ("end_line", .jint (-3)),
         ("selected_text", .jnull), ("timestamp", .jstr "later")])])), none⟩ :=
  ⟨rfl, rfl, rfl⟩

/-- C7 amended: a selection present in a document returned by get_state has
always passed the store's field-presence check (each of the five required
field names tests as a member of the selection value); field types and
numeric ranges are not validated. -/
theorem get_state_selection_presence_only (fs : FS) (sel : JVal)
    (h : lookupKey (get_state fs).1 "selection" = some sel) :
    allFieldsIn sel = .ok true := by
  obtain ⟨sf, bk⟩ := fs
  cases sf with
  | none => exact Option.noConfusion h
  | some c =>
    cases c with
    | garbage b => exact Option.noConfusion h
    | json v =>
      cases v with
      | jobj kvs =>
        unfold get_state json_load at h
        dsimp only at h
        cases hsel : lookupKey kvs "selection" with
        | none =>
          rw [hsel] at h
          dsimp only at h
          rw [hsel] at h
          exact Option.noConfusion h
        | some sel0 =>
          rw [hsel] at h
          dsimp only at h
          cases hall : allFieldsIn sel0 with
          | error e =>
            rw [hall] at h
            exact Option.noConfusion h
          | ok b =>
            rw [hall] at h
            cases b with
            | true =>
              rw [hsel] at h
              have : sel0 = sel := Option.some.inj h
              rw [← this]
              exact hall
            | false =>
              rw [lookup_popKey_self kvs "selection"] at h
              exact Option.noConfusion h
      | jnull => exact Option.noConfusion h
      | jbool b => exact Option.noConfusion h
      | jint n => exact Option.noConfusion h
      | jstr s => exact Option.noConfusion h
      | jarr xs => exact Option.noConfusion h

/-- Witness for C7's amended theorem at a concrete well-formed document. -/
theorem get_state_selection_presence_only_witness :
    allFieldsIn (.jobj
      [("file_path", JVal.jstr "test.py"), ("start_line", JVal.jint 10),
       ("end_line", JVal.jint 20), ("selected_text", JVal.jstr "def t"),
       ("timestamp", JVal.jint 1000)]) = .ok true :=
  get_state_selection_presence_only
    ⟨some (.json (.jobj [("selection", JVal.jobj
      [("file_path", JVal.jstr "test.py"), ("start_line", JVal.jint 10),
       ("end_line", JVal.jint 20), ("selected_text", JVal.jstr "def t"),
       ("timestamp", JVal.jint 1000)])])), none⟩
    (.jobj
      [("file_path", JVal.jstr "test.py"), ("start_line", JVal.jint 10),
       ("end_line", JVal.jint 20), ("selected_text", JVal.jstr "def t"),
       ("timestamp", JVal.jint 1000)]) rfl

/-- A JSON value that supports neither key lookup nor membership testing:
Python raises TypeError on `field in v` for these. -/
def nonContainer : JVal → Bool
  | .jnull => true
  | .jbool _ => true
  | .jint _ => true
  | _ => false

theorem allFieldsIn_nonContainer (v : JVal) (h : nonContainer v = true) :
    allFieldsIn v = .error () := by
  cases v with
  | jnull => rfl
  | jbool b => rfl
  | jint n => rfl
  | jstr s => exact Bool.noConfusion h
  | jarr xs => exact Bool.noConfusion h
  | jobj kvs => exact Bool.noConfusion h

/-- C10: get_state is total over arbitrary stored JSON: when the selection
key maps to a value supporting neither key lookup nor membership testing, the
field-presence test raises, the generic handler returns the empty document,
and the on-disk file is untouched — no backup, no persisted correction — so a
second read repeats the same recovery. -/
theorem get_state_total_non_container_selection (st : Doc)
    (bk : Option FileContent) (sel : JVal)
    (hsel : lookupKey st "selection" = some sel)
    (hnc : nonContainer sel = true) :
    get_state ⟨some (.json (.jobj st)), bk⟩ = ([], ⟨some (.json (.jobj st)), bk⟩) ∧
    get_state (get_state ⟨some (.json (.jobj st)), bk⟩).2 =
      ([], ⟨some (.json (.jobj st)), bk⟩) := by
  have h1 : get_state ⟨some (.json (.jobj st)), bk⟩ =
      ([], ⟨some (.json (.jobj st)), bk⟩) := by
    unfold get_state json_load
    simp [hsel, allFieldsIn_nonContainer sel hnc]
  exact ⟨h1, by rw [h1]; exact h1⟩

/-- Witness for C10: a document whose selection is the integer 7. -/
theorem get_state_total_non_container_selection_witness :
    get_state ⟨some (.json (.jobj
        [("selection", JVal.jint 7), ("other", JVal.jstr "x")])), none⟩ =
      ([], ⟨some (.json (.jobj
        [("selection", JVal.jint 7), ("other", JVal.jstr "x")])), none⟩) :=
  (get_state_total_non_container_selection
    [("selection", JVal.jint 7), ("other", JVal.jstr "x")] none (JVal.jint 7)
    rfl rfl).1

/-- Splits the remainder of a relative path on slashes, accumulating the
current component in reverse; models Python path-component splitting. -/
def splitSlashAux : List Char → List Char → List String
  | [], acc => [String.mk acc.reverse]
  | c :: rest, acc =>
      if c == '/' then String.mk acc.reverse :: splitSlashAux rest []
      else splitSlashAux rest (c :: acc)

/-- `path.lstrip("/")` followed by splitting into path components, as done by
joining the request path onto BASE_DIR. -/
def splitRelParts (rel : String) : List String :=
  splitSlashAux (rel.data.dropWhile (fun c => c == '/')) []

/-- Path normalization over components: drops empty and "." components and
resolves ".." against the absolute base (popping past the root stays at the
root).  Models Path.resolve() (src/mcp_server.py) and os.path.normpath
(src/server.py) on a symlink-free filesystem — the embedding has no symlink
table, so both collapse to the same normalization. -/
def normalizeParts (parts : List String) : List String :=
  parts.foldl (fun acc p =>
    if p = "" ∨ p = "." then acc
    else if p = ".." then acc.dropLast
    else acc ++ [p]) []

/-- The resolved absolute components of BASE_DIR / path.lstrip("/"). -/
def resolvedParts (base : List String) (rel : String) : List String :=
  normalizeParts (base ++ splitRelParts rel)

/-- Character rendering of an absolute path from its components. -/
def renderChars0 : List String → List Char
  | [] => []
  | p :: rest => '/' :: (p.data ++ renderChars0 rest)

/-- `str(path)` for an absolute path given by its components. -/
def renderPath (parts : List String) : String :=
  match parts with
  | [] => "/"
  | _ => String.mk (renderChars0 parts)

/-- Python `s.startswith(pre)`: prefix test on the character sequence. -/
def pyStartswith (s pre : String) : Bool :=
  pre.data.isPrefixOf s.data

/-- Failure modes of the file-access operations. -/
inductive FileErr where
  | accessDenied
  | notFound
  | notADirectory
  | notAFile

/-- Embeds the guard structure of list_files (src/mcp_server.py lines
129-155): resolve BASE_DIR / path.lstrip("/"), deny unless str(resolved)
startswith str(BASE_DIR), then check existence and directory-ness against the
filesystem oracles `ex` / `isDir`; the directory listing itself is abstracted
to Unit. -/
def list_files (base : List String) (ex isDir : List String → Bool)
    (rel : String) : Except FileErr Unit :=
  if pyStartswith (renderPath (resolvedParts base rel)) (renderPath base) = false then
    .error .accessDenied
  else if ex (resolvedParts base rel) = false then .error .notFound
  else if isDir (resolvedParts base rel) = false then .error .notADirectory
  else .ok ()

/-- Embeds the guard structure of read_file (src/mcp_server.py lines
158-186): same sandbox check, then is_file; content reading abstracted to
Unit. -/
def read_file (base : List String) (isFile0 : List String → Bool)
    (rel : String) : Except FileErr Unit :=
  if pyStartswith (renderPath (resolvedParts base rel)) (renderPath base) = false then
    .error .accessDenied
  else if isFile0 (resolvedParts base rel) = false then .error .notAFile
  else .ok ()

/-- Embeds the guard structure of FileServerHandler.handle_files_api
(src/server.py lines 40-56): os.path.join + os.path.normpath (no symlink
resolution; identical to `resolvedParts` in this symlink-free model), the
same string-prefix check answering HTTP 403, then 404 for a missing path and
400 for a file. -/
def handle_files_api (base : List String) (ex isFile0 : List String → Bool)
    (rel : String) : Except Int Unit :=
  if pyStartswith (renderPath (resolvedParts base rel)) (renderPath base) = false then
    .error 403
  else if ex (resolvedParts base rel) = false then .error 404
  else if isFile0 (resolvedParts base rel) = true then .error 400
  else .ok ()

/-- C9 counterexample: a request that resolves to a sibling directory whose
name extends the base directory's name escapes the sandbox: with base
/home/user/proj, the path "../proj2/secret" resolves to
/home/user/proj2/secret — outside the base — yet both servers' checks let it
through because "/home/user/proj2/secret" startswith "/home/user/proj". -/
theorem sandbox_prefix_collision_escape :
    resolvedParts ["home", "user", "proj"] "../proj2/secret" =
      ["home", "user", "proj2", "secret"] ∧
    List.isPrefixOf ["home", "user", "proj"]
      (resolvedParts ["home", "user", "proj"] "../proj2/secret") = false ∧
    list_files ["home", "user", "proj"] (fun _ => true) (fun _ => true)
      "../proj2/secret" = .ok () ∧
    read_file ["home", "user", "proj"] (fun _ => true)
      "../proj2/secret" = .ok () ∧
    handle_files_api ["home", "user", "proj"] (fun _ => true) (fun _ => false)
      "../proj2/secret" = .ok () :=
  ⟨rfl, rfl, rfl, rfl, rfl⟩

theorem isPrefixOf_append_self {α : Type} [BEq α] [LawfulBEq α]
    (a b : List α) : a.isPrefixOf (a ++ b) = true := by
  induction a with
  | nil => simp [List.isPrefixOf]
  | cons x xs ih => simp [List.isPrefixOf, ih]

theorem isPrefixOf_exists {α : Type} [BEq α] [LawfulBEq α] (a : List α) :
    ∀ b : List α, a.isPrefixOf b = true → ∃ t, b = a ++ t := by
  induction a with
  | nil => intro b _; exact ⟨b, rfl⟩
  | cons x xs ih =>
    intro b h
    cases b with
    | nil => simp [List.isPrefixOf] at h
    | cons y ys =>
      simp only [List.isPrefixOf, Bool.and_eq_true, beq_iff_eq] at h
      obtain ⟨h1, h2⟩ := h
      obtain ⟨t, ht⟩ := ih ys h2
      exact ⟨t, by rw [h1, ht]; rfl⟩

theorem renderChars0_append (a b : List String) :
    renderChars0 (a ++ b) = renderChars0 a ++ renderChars0 b := by
  induction a with
  | nil => simp [renderChars0]
  | cons x xs ih => simp [renderChars0, ih]

theorem under_base_startswith (base t : List String) :
    pyStartswith (renderPath (base ++ t)) (renderPath base) = true := by
  cases base with
  | nil =>
    cases t with
    | nil => rfl
    | cons y ys =>
      simp [renderPath, pyStartswith, renderChars0, List.isPrefixOf]
  | cons x xs =>
    show (renderChars0 (x :: xs)).isPrefixOf (renderChars0 ((x :: xs) ++ t)) = true
    rw [renderChars0_append]
    exact isPrefixOf_append_self _ _

/-- C9 amended: the access checks deny a request exactly by the string-prefix
test: whenever str(resolved) does not start with str(base), the listing and
reading operations fail with access-denied (HTTP 403 on the UI server); and
every path that truly resolves under the base (base is a component-prefix of
the resolved path) passes the check and is never denied.  The counterexample
shows the gap the string test leaves open: an outside path in a sibling
directory whose name extends the base's name is not denied. -/
theorem sandbox_check_amended (base : List String) (rel : String)
    (ex isDir isFile0 : List String → Bool) :
    (pyStartswith (renderPath (resolvedParts base rel)) (renderPath base) = false →
      list_files base ex isDir rel = .error .accessDenied ∧
      read_file base isFile0 rel = .error .accessDenied ∧
      handle_files_api base ex isFile0 rel = .error 403) ∧
    (List.isPrefixOf base (resolvedParts base rel) = true →
      list_files base ex isDir rel ≠ .error .accessDenied ∧
      read_file base isFile0 rel ≠ .error .accessDenied ∧
      handle_files_api base ex isFile0 rel ≠ .error 403) := by
  constructor
  · intro hsw
    exact ⟨by simp [list_files, hsw], by simp [read_file, hsw],
           by simp [handle_files_api, hsw]⟩
  · intro hpre
    obtain ⟨t, ht⟩ := isPrefixOf_exists base (resolvedParts base rel) hpre
    have hsw : pyStartswith (renderPath (resolvedParts base rel))
        (renderPath base) = true := by
      rw [ht]; exact under_base_startswith base t
    refine ⟨?_, ?_, ?_⟩
    · intro hcontra
      unfold list_files at hcontra
      rw [hsw] at hcontra
      by_cases hex : ex (resolvedParts base rel) = false <;>
        by_cases hdir : isDir (resolvedParts base rel) = false <;>
        simp [hex, hdir] at hcontra
    · intro hcontra
      unfold read_file at hcontra
      rw [hsw] at hcontra
      by_cases hf : isFile0 (resolvedParts base rel) = false <;>
        simp [hf] at hcontra
    · intro hcontra
      unfold handle_files_api at hcontra
      rw [hsw] at hcontra
      by_cases hex : ex (resolvedParts base rel) = false <;>
        by_cases hf : isFile0 (resolvedParts base rel) = true <;>
        simp [hex, hf] at hcontra

/-- Witness for C9's amended theorem: /a with request "../../etc" resolves to
/etc, fails the string-prefix test and is denied; the contained request "b"
resolves to /a/b and is not denied. -/
theorem sandbox_check_amended_witness :
    list_files ["a"] (fun _ => true) (fun _ => true) "../../etc" =
      .error .accessDenied ∧
    list_files ["a"] (fun _ => true) (fun _ => true) "b" ≠
      .error .accessDenied :=
  ⟨((sandbox_check_amended ["a"] "../../etc" (fun _ => true) (fun _ => true)
      (fun _ => true)).1 rfl).1,
   ((sandbox_check_amended ["a"] "b" (fun _ => true) (fun _ => true)
      (fun _ => true)).2 rfl).1⟩

/-- The last component of a resolved path (full_path.name). -/
def lastComponent (parts : List String) : String :=
  parts.getLast?.getD ""

/-- Path.suffix of a file name: the extension including the dot, taken from
the last dot, empty when the name has no dot, starts with its only dot, or
ends with the dot. -/
def suffixOf (name : String) : String :=
  match List.findIdx? (fun c => c == '.') name.data.reverse with
  | none => ""
  | some j =>
    if 0 < name.data.length - 1 - j ∧ name.data.length - 1 - j < name.data.length - 1
    then String.mk (name.data.drop (name.data.length - 1 - j))
    else ""

/-- Path.stem of a file name: the name with its suffix removed. -/
def stemOf (name : String) : String :=
  if suffixOf name = "" then name
  else String.mk (name.data.take (name.data.length - (suffixOf name).data.length))

/-- Python slice msg[:500] over characters. -/
def strTake500 (s : String) : String :=
  String.mk (s.data.take 500)

theorem strTake500_length (s : String) : (strTake500 s).length ≤ 500 := by
  show (s.data.take 500).length ≤ 500
  simp [List.length_take]

/-- The timeout passed to subprocess.run for pdflatex (src/mcp_server.py line
211); on expiry subprocess.run kills the child and raises TimeoutExpired. -/
def pdflatexTimeoutSeconds : Int := 60

/-- Behaviour of the external pdflatex invocation: it either completes within
the timeout (with a return code and captured stdout/stderr), exceeds the
timeout (subprocess.run kills it and raises TimeoutExpired), or the
executable is missing (FileNotFoundError). -/
inductive LatexOutcome where
  | completed (returncode : Int) (stdoutText stderrText : String)
  | timedOut
  | toolMissing

/-- The world render_latex runs against: the base directory, the requested
path, whether the resolved target is a file, the compiler's behaviour,
whether the output pdf exists after the run, and whether the .aux and .log
artifacts for the file's stem exist. -/
structure LatexEnv where
  baseParts : List String
  relPath : String
  isFile : Bool
  outcome : LatexOutcome
  pdfProduced : Bool
  auxExists : Bool
  logExists : Bool

/-- What render_latex returns: a raised ValueError (precondition failure) or
the result dict with success flag, optional error text and optional pdf
path components relative to the base. -/
inductive RenderResult where
  | raised (msg : String)
  | finished (success : Bool) (errText : Option String) (pdfRelParts : Option (List String))

/-- Whether the .aux and .log artifacts exist after the call. -/
structure AuxAfter where
  auxExists : Bool
  logExists : Bool

/-- Embeds render_latex (src/mcp_server.py lines 189-236): sandbox check,
.tex precondition, run pdflatex with a 60 s timeout, unlink the .aux/.log
artifacts after a completed run, then report failure with the truncated
stderr-or-stdout text when the compiler failed or produced no pdf, else
report the pdf path relative to the base.  TimeoutExpired and
FileNotFoundError short-circuit to fixed error dicts before the cleanup
loop runs, so the artifacts survive those paths; a pdf path outside the base
makes relative_to raise, caught by the generic handler (error text is the
exception's message, approximated here). -/
def render_latex (env : LatexEnv) : RenderResult × AuxAfter :=
  if pyStartswith (renderPath (resolvedParts env.baseParts env.relPath))
      (renderPath env.baseParts) = false then
    (.raised "Access denied: path outside base directory",
     ⟨env.auxExists, env.logExists⟩)
  else if env.isFile = false ∨
      suffixOf (lastComponent (resolvedParts env.baseParts env.relPath)) ≠ ".tex" then
    (.raised "Not a .tex file", ⟨env.auxExists, env.logExists⟩)
  else
    match env.outcome with
    | .completed rc souts serrs =>
      if rc ≠ 0 ∨ env.pdfProduced = false then
        (.finished false (some (strTake500
          (if serrs ≠ "" then serrs
           else if souts ≠ "" then souts
           else "pdflatex compilation failed"))) none,
         ⟨false, false⟩)
      else
        if List.isPrefixOf env.baseParts
            ((resolvedParts env.baseParts env.relPath).dropLast ++
             [stemOf (lastComponent (resolvedParts env.baseParts env.relPath)) ++ ".pdf"]) then
          (.finished true none (some
            (((resolvedParts env.baseParts env.relPath).dropLast ++
              [stemOf (lastComponent (resolvedParts env.baseParts env.relPath)) ++ ".pdf"]).drop
              env.baseParts.length)),
           ⟨false, false⟩)
        else
          (.finished false (some
            (renderPath ((resolvedParts env.baseParts env.relPath).dropLast ++
              [stemOf (lastComponent (resolvedParts env.baseParts env.relPath)) ++ ".pdf"]) ++
             " is not in the subpath of " ++ renderPath env.baseParts)) none,
           ⟨false, false⟩)
    | .timedOut =>
        (.finished false (some "Compilation timed out") none,
         ⟨env.auxExists, env.logExists⟩)
    | .toolMissing =>
        (.finished false (some "pdflatex not found. Please install LaTeX.") none,
         ⟨env.auxExists, env.logExists⟩)

/-- The sandbox and .tex precondition checks of render_latex all pass. -/
def texPrecheckOk (env : LatexEnv) : Bool :=
  pyStartswith (renderPath (resolvedParts env.baseParts env.relPath))
    (renderPath env.baseParts) &&
  env.isFile &&
  (suffixOf (lastComponent (resolvedParts env.baseParts env.relPath)) == ".tex")

/-- C8 counterexample: on a pdflatex timeout the cleanup loop never runs: for
a valid .tex request whose compilation times out while both artifacts exist,
render_latex returns the timeout failure and leaves the .aux and .log files
in place — the claim's "deletes .aux and .log regardless of outcome —
success, compiler failure, or timeout" is false on the timeout path. -/
theorem render_latex_timeout_skips_cleanup :
    render_latex ⟨["home", "user", "proj"], "doc/main.tex", true,
        .timedOut, false, true, true⟩ =
      (.finished false (some "Compilation timed out") none, ⟨true, true⟩) :=
  rfl

theorem texPrecheckOk_split (env : LatexEnv) (h : texPrecheckOk env = true) :
    pyStartswith (renderPath (resolvedParts env.baseParts env.relPath))
      (renderPath env.baseParts) = true ∧
    env.isFile = true ∧
    suffixOf (lastComponent (resolvedParts env.baseParts env.relPath)) = ".tex" := by
  unfold texPrecheckOk at h
  simp only [Bool.and_eq_true, beq_iff_eq] at h
  exact ⟨h.1.1, h.1.2, h.2⟩

/-- C8 amended: render_latex bounds the compiler by the 60-second subprocess
timeout (which terminates the child, per subprocess.run), deletes the .aux
and .log artifacts after every completed compiler run — success or compiler
failure — but not on the timeout path, where it instead returns the fixed
non-raising timeout failure and leaves the artifacts in place; compiler
error text is truncated to at most 500 characters; and a non-.tex path (or a
non-file) is rejected by a raised precondition error distinct from a
compiler-failure result. -/
theorem render_latex_amended_spec (env : LatexEnv) :
    (∀ rc souts serrs, texPrecheckOk env = true →
      env.outcome = .completed rc souts serrs →
      (render_latex env).2 = ⟨false, false⟩) ∧
    (texPrecheckOk env = true → env.outcome = .timedOut →
      render_latex env =
        (.finished false (some "Compilation timed out") none,
         ⟨env.auxExists, env.logExists⟩)) ∧
    (∀ rc souts serrs, texPrecheckOk env = true →
      env.outcome = .completed rc souts serrs →
      (rc ≠ 0 ∨ env.pdfProduced = false) →
      ∃ e, (render_latex env).1 = .finished false (some e) none ∧
        e.length ≤ 500) ∧
    (pyStartswith (renderPath (resolvedParts env.baseParts env.relPath))
        (renderPath env.baseParts) = true →
      (env.isFile = false ∨
        suffixOf (lastComponent (resolvedParts env.baseParts env.relPath)) ≠ ".tex") →
      render_latex env =
        (.raised "Not a .tex file", ⟨env.auxExists, env.logExists⟩)) ∧
    pdflatexTimeoutSeconds = 60 := by
  refine ⟨?_, ?_, ?_, ?_, rfl⟩
  · intro rc souts serrs hpre hout
    obtain ⟨hsw, hf, hsfx⟩ := texPrecheckOk_split env hpre
    unfold render_latex
    rw [hout]
    simp only [hsw, hf, hsfx]
    by_cases hrc : rc ≠ 0 ∨ env.pdfProduced = false
    · simp [hrc]
    · simp only [hrc, if_false]
      by_cases hp : List.isPrefixOf env.baseParts
          ((resolvedParts env.baseParts env.relPath).dropLast ++
           [stemOf (lastComponent (resolvedParts env.baseParts env.relPath)) ++ ".pdf"])
      · simp [hp, hrc]
      · simp [hp, hrc]
  · intro hpre hout
    obtain ⟨hsw, hf, hsfx⟩ := texPrecheckOk_split env hpre
    unfold render_latex
    rw [hout]
    simp [hsw, hf, hsfx]
  · intro rc souts serrs hpre hout hfail
    obtain ⟨hsw, hf, hsfx⟩ := texPrecheckOk_split env hpre
    refine ⟨strTake500
      (if serrs ≠ "" then serrs
       else if souts ≠ "" then souts
       else "pdflatex compilation failed"), ?_, strTake500_length _⟩
    unfold render_latex
    rw [hout]
    simp [hsw, hf, hsfx, hfail]
  · intro hsw hbad
    unfold render_latex
    simp [hsw, hbad]

/-- Witness for C8's amended theorem: a failing completed run cleans up both
artifacts and reports truncated error text; a bad suffix raises. -/
theorem render_latex_amended_spec_witness :
    (render_latex ⟨["home", "user", "proj"], "doc/main.tex", true,
        .completed 1 "out" "err", false, true, true⟩).2 = ⟨false, false⟩ ∧
    render_latex ⟨["home", "user", "proj"], "doc/notes.txt", true,
        .completed 0 "" "", true, false, false⟩ =
      (.raised "Not a .tex file", ⟨false, false⟩) := by
  constructor
  · exact (render_latex_amended_spec ⟨["home", "user", "proj"], "doc/main.tex",
      true, .completed 1 "out" "err", false, true, true⟩).1 1 "out" "err"
      (by decide) rfl
  · exact (render_latex_amended_spec ⟨["home", "user", "proj"], "doc/notes.txt",
      true, .completed 0 "" "", true, false, false⟩).2.2.2.1 (by decide)
      (Or.inr (by decide))
